import Mathlib

/-!
Verification of the drift-cli plan-execution pipeline: a shallow embedding of
`drift_cli/core/safety.py`, `drift_cli/core/executor.py` and
`drift_cli/core/history.py`, together with theorems about the executor's
safety gate, stop-on-failure loop, dry-run purity, and the snapshot store's
create/restore/cleanup operations.

Python's `re.search` is an external library primitive; it is abstracted as an
oracle `reSearch : String → String → Bool` (pattern, text ↦ match?).  The
filesystem is modelled as a partial map from resolved absolute paths
(component lists) to regular-file contents; a file's content is either text
bytes or the JSON serialization of a snapshot metadata record, so the
`metadata.json` file that `create_snapshot` writes inside the snapshot
directory lives at its real path (and can alias a snapshotted file's copy).
Directory creation is implicit except where a regular file blocks a path
component, in which case `mkdir` raises, and `create_snapshot` mirrors the
source in leaving that exception uncaught (history.py lines 145 and 174).
-/

namespace DriftCli

/-- models.py: `RiskLevel` enum (low / medium / high). -/
inductive RiskLevel where
  | low
  | medium
  | high
deriving DecidableEq, Repr

/-- models.py: `Command` — shell text, description, optional dry-run variant. -/
structure Command where
  command : String
  description : String
  dry_run : Option String
deriving DecidableEq, Repr

/-- models.py: `ClarificationQuestion`. -/
structure ClarificationQuestion where
  question : String
  options : Option (List String)
deriving DecidableEq, Repr

/-- models.py: `Plan`. -/
structure Plan where
  summary : String
  risk : RiskLevel
  commands : List Command
  explanation : String
  affected_files : Option (List String)
  clarification_needed : Option (List ClarificationQuestion)
deriving DecidableEq, Repr

/-- Python `"\n".join(lines)`. -/
def joinLines : List String → String
  | [] => ""
  | [x] => x
  | x :: y :: rest => x ++ "\n" ++ joinLines (y :: rest)

namespace SafetyChecker

/-- safety.py lines 13-54: `HARD_BLOCKLIST` regex pattern strings. -/
def HARD_BLOCKLIST : List String :=
  [ "rm\\s+-rf\\s*/($|\\s)"
  , "rm\\s+-rf\\s+/[a-z]+"
  , "rm\\s+-rf\\s+\\*"
  , "sudo\\s+rm\\s+-rf"
  , "mkfs\\."
  , "dd\\s+if=.*of=/dev/"
  , "dd\\s+.*of=/dev/(sd|hd|nvme)"
  , "curl[^\\|]*\\|\\s*(sh|bash|zsh|python|ruby|perl)"
  , "wget[^\\|]*\\|\\s*(sh|bash|zsh|python|ruby|perl)"
  , "<\\(curl"
  , "<\\(wget"
  , ":\\(\\)\\\x7b\\s*:\\|:&\\s*\\\x7d;:"
  , "diskutil\\s+(eraseDisk|eraseVolume)"
  , "fdisk\\s+"
  , "parted\\s+"
  , ">\\s*/dev/(sd|hd|nvme)"
  , "mv\\s+.*\\s+/dev/(sd|hd|nvme|null)"
  , "chmod\\s+(-R\\s+)?777\\s+/"
  , "chown\\s+-R\\s+.*\\s+/"
  , "python[23]?\\s+-c\\s+.*exec\\s*\\("
  , "python[23]?\\s+-c\\s+.*eval\\s*\\("
  , "perl\\s+-e\\s+"
  , "ruby\\s+-e\\s+"
  , "node\\s+-e\\s+"
  , "php\\s+-r\\s+"
  , "bash\\s+-c\\s+.*\\$\\("
  , "sh\\s+-c\\s+.*`"
  , "eval\\s+\\$"
  , "xmrig"
  , "cryptonight"
  , "base64.*perl.*exec"
  ]

/-- safety.py lines 57-77: `HIGH_RISK_PATTERNS`. -/
def HIGH_RISK_PATTERNS : List String :=
  [ "sudo\\s+"
  , "rm\\s+-r(f)?\\s+"
  , "chmod\\s+777"
  , "chmod\\s+-R"
  , "chown\\s+-R"
  , ">/dev/"
  , "dd\\s+"
  , "format\\s+"
  , "kill\\s+-9"
  , "pkill\\s+"
  , "killall\\s+"
  , "dscl\\s+"
  , "launchctl\\s+unload"
  , "systemctl\\s+disable"
  , "git\\s+push\\s+(-f|--force)"
  , "git\\s+reset\\s+--hard"
  , "docker\\s+system\\s+prune\\s+-a"
  , "npm\\s+uninstall\\s+-g"
  , "brew\\s+uninstall"
  ]

/-- safety.py lines 80-96: `MEDIUM_RISK_PATTERNS`. -/
def MEDIUM_RISK_PATTERNS : List String :=
  [ "rm\\s+"
  , "mv\\s+"
  , "chmod\\s+"
  , "chown\\s+"
  , "git\\s+push"
  , "git\\s+commit\\s+--amend"
  , "npm\\s+install\\s+-g"
  , "pip\\s+install"
  , "brew\\s+install"
  , "apt-get\\s+install"
  , "yum\\s+install"
  , "docker\\s+run"
  , "docker\\s+exec"
  , ">\\s*"
  , ">>"
  ]

/-- safety.py `is_blocked`: first matching blocklist pattern wins; the reason
string quotes the first 30 characters of the pattern.  `reSearch pat cmd`
abstracts Python `re.search(pat, cmd, re.IGNORECASE)`. -/
def is_blocked (reSearch : String → String → Bool) (command : String) : Bool × String :=
  match HARD_BLOCKLIST.find? (fun pat => reSearch pat command) with
  | some pat => (true, "Blocked: dangerous pattern detected (" ++ pat.take 30 ++ "...)")
  | none => (false, "")

/-- safety.py `assess_risk`: blocklist ⇒ high, else first high-risk match ⇒
high, else first medium-risk match ⇒ medium, else low. -/
def assess_risk (reSearch : String → String → Bool) (command : String) : RiskLevel :=
  if (is_blocked reSearch command).1 then RiskLevel.high
  else if HIGH_RISK_PATTERNS.any (fun pat => reSearch pat command) then RiskLevel.high
  else if MEDIUM_RISK_PATTERNS.any (fun pat => reSearch pat command) then RiskLevel.medium
  else RiskLevel.low

/-- safety.py `validate_commands` loop body: accumulate `(all_safe, warnings)`
over one command. -/
def validateStep (reSearch : String → String → Bool) (acc : Bool × List String)
    (cmd : String) : Bool × List String :=
  let (blocked, reason) := is_blocked reSearch cmd
  if blocked then
    (false, acc.2 ++ ["❌ BLOCKED: " ++ cmd ++ "\n   Reason: " ++ reason])
  else
    match assess_risk reSearch cmd with
    | RiskLevel.high => (acc.1, acc.2 ++ ["⚠️  HIGH RISK: " ++ cmd])
    | RiskLevel.medium => (acc.1, acc.2 ++ ["⚡ MEDIUM RISK: " ++ cmd])
    | RiskLevel.low => (acc.1, acc.2)

/-- safety.py lines 136-158: `validate_commands` — fold the loop body over the
whole list starting from `(True, [])`; no short-circuit. -/
def validate_commands (reSearch : String → String → Bool) (commands : List String) :
    Bool × List String :=
  commands.foldl (validateStep reSearch) (true, [])

/-- The warnings one command contributes in `validate_commands`. -/
def commandWarnings (reSearch : String → String → Bool) (cmd : String) : List String :=
  if (is_blocked reSearch cmd).1 then
    ["❌ BLOCKED: " ++ cmd ++ "\n   Reason: " ++ (is_blocked reSearch cmd).2]
  else
    match assess_risk reSearch cmd with
    | RiskLevel.high => ["⚠️  HIGH RISK: " ++ cmd]
    | RiskLevel.medium => ["⚡ MEDIUM RISK: " ++ cmd]
    | RiskLevel.low => []

end SafetyChecker

/-- Instrumentation of the Executor's side effects: one `snapshot` event per
`history.create_snapshot` call, one `run` event per `_run_command` call. -/
inductive Effect where
  | snapshot (files : List String)
  | run (command : String)
deriving DecidableEq, Repr

/-- The command strings of the `run` events of an effect trace. -/
def runsOf (trace : List Effect) : List String :=
  trace.filterMap (fun e =>
    match e with
    | Effect.run c => some c
    | Effect.snapshot _ => none)

/-- Environment of an `Executor` instance (executor.py): the consulted
environment variables, the outcome of the sandbox check, and oracles for the
external primitives `re.search`, `subprocess.run` (via `_run_command`, which
returns an exit code and combined output) and `history.create_snapshot`
(which returns a fresh UUID string). -/
structure ExecEnv where
  DRIFT_DRY_RUN : String
  executor_mode : String
  sandbox_violation : Option String
  reSearch : String → String → Bool
  runCmd : String → Int × String
  createSnap : List String → String

namespace Executor

/-- Python `str.lower()`, character by character. -/
def stringLower (s : String) : String := ⟨s.data.map Char.toLower⟩

/-- Python `a or b` where `a` is an optional string: falls back to `b` when
`a` is `None` OR the empty string (Python truthiness). -/
def pyOrStr (a : Option String) (b : String) : String :=
  match a with
  | some s => if s = "" then b else s
  | none => b

/-- executor.py line 39: `os.getenv("DRIFT_DRY_RUN", "").lower() in ("1", "true", "yes")`. -/
def forcedDryRun (env : ExecEnv) : Bool :=
  ["1", "true", "yes"].contains (stringLower env.DRIFT_DRY_RUN)

/-- executor.py lines 64-82: the command loop.  `idx` is the 1-based counter
from `enumerate(plan.commands, 1)`.  Returns the final `exit_code`, the
accumulated `output_lines`, and the run-effect trace.  In the local branch the
loop overwrites `exit_code` with each command's code and breaks on the first
non-zero code after appending the failure marker. -/
def execCommands (mode : String) (runCmd : String → Int × String) (dry : Bool) :
    Nat → List Command → Int × List String × List Effect
  | _, [] => (0, [], [])
  | idx, cmd :: rest =>
    if dry then
      let line := "[DRY RUN " ++ toString idx ++ "] " ++ pyOrStr cmd.dry_run cmd.command
      let r := execCommands mode runCmd dry (idx + 1) rest
      (r.1, line :: r.2.1, r.2.2)
    else if mode = "mock" then
      let line := "[MOCK " ++ toString idx ++ "] Would execute: " ++ cmd.command
      let r := execCommands mode runCmd dry (idx + 1) rest
      (r.1, line :: r.2.1, r.2.2)
    else
      let code := (runCmd cmd.command).1
      let out := (runCmd cmd.command).2
      let header := "[" ++ toString idx ++ "] Executing: " ++ cmd.command
      let lines := if out = "" then [header] else [header, out]
      if code ≠ 0 then
        (code, lines ++ ["Command failed with exit code " ++ toString code],
         [Effect.run cmd.command])
      else
        let r := execCommands mode runCmd dry (idx + 1) rest
        (r.1, lines ++ r.2.1, Effect.run cmd.command :: r.2.2)

/-- executor.py lines 25-84: `execute_plan`.  Returns the source's
`(exit_code, output, snapshot_id)` triple paired with the effect trace.
Mirrors, in order: the forced-dry-run override, the safety gate, the sandbox
gate (`sandbox_violation` is `none` when no sandbox root is configured or the
cwd is inside it), the conditional snapshot (Python truthiness: a non-empty
`affected_files` list and not a dry run), and the command loop. -/
def execute_plan (env : ExecEnv) (plan : Plan) (dry_run : Bool) :
    (Int × String × Option String) × List Effect :=
  let dry := if forcedDryRun env then true else dry_run
  let commands_list := plan.commands.map Command.command
  let v := SafetyChecker.validate_commands env.reSearch commands_list
  if v.1 = false then
    ((1, joinLines v.2, none), [])
  else
    match env.sandbox_violation with
    | some violation => ((1, violation, none), [])
    | none =>
      let snapFiles : Option (List String) :=
        match plan.affected_files with
        | some fs => if fs.isEmpty then none else if dry then none else some fs
        | none => none
      let snapshot_id : Option String := snapFiles.map env.createSnap
      let snapEffs : List Effect :=
        match snapFiles with
        | some fs => [Effect.snapshot fs]
        | none => []
      let r := execCommands env.executor_mode env.runCmd dry 1 plan.commands
      ((r.1, joinLines r.2.1, snapshot_id), snapEffs ++ r.2.2)

/-- The preview lines the dry-run branch of the loop emits, one per command,
with the 1-based index and `cmd.dry_run or cmd.command` (executor.py line
67): the dry-run variant when present and non-empty, else the real text. -/
def dryRunLines : Nat → List Command → List String
  | _, [] => []
  | idx, cmd :: rest =>
    ("[DRY RUN " ++ toString idx ++ "] " ++ pyOrStr cmd.dry_run cmd.command) ::
      dryRunLines (idx + 1) rest

/-- The literal reading of the spec's dry-run sentence — "using the command's
dry-run variant if present, else its real text" — under which a PRESENT but
EMPTY variant would be used as the preview.  Stated only to be compared with
the program's `dryRunLines`; the two differ at `dry_run = some ""`. -/
def dryRunLinesSpecReading : Nat → List Command → List String
  | _, [] => []
  | idx, cmd :: rest =>
    ("[DRY RUN " ++ toString idx ++ "] " ++ cmd.dry_run.getD cmd.command) ::
      dryRunLinesSpecReading (idx + 1) rest

/-- The snapshot-creation effect of one `execute_plan` call, as a function of
the files it decides to snapshot. -/
def snapEffects : Option (List String) → List Effect
  | some fs => [Effect.snapshot fs]
  | none => []

/-- The files `execute_plan` decides to snapshot: a non-empty
`affected_files` list when not a dry run. -/
def snapFilesOf (plan : Plan) (dry : Bool) : Option (List String) :=
  match plan.affected_files with
  | some fs => if fs.isEmpty then none else if dry then none else some fs
  | none => none

end Executor

/-- A resolved absolute path, as its list of components (no leading slash
component; symlink resolution via `Path.resolve()` is assumed already done, so
paths are compared structurally). -/
abbrev FPath := List String

/-- `Path.home()` in the model. -/
def homeDir : FPath := ["home", "user"]

/-- history.py: `self.drift_dir = Path.home() / ".drift"`. -/
def driftDir : FPath := homeDir ++ [".drift"]

/-- history.py: `self.snapshots_dir = self.drift_dir / "snapshots"`. -/
def snapshotsDir : FPath := driftDir ++ ["snapshots"]

/-- One entry of a snapshot's `metadata.json` `files` array:
`{"original": ..., "snapshot": ..., "size_bytes": ...}`. -/
structure FileEntry where
  original : FPath
  snapshot : FPath
  size_bytes : Nat
deriving DecidableEq, Repr

/-- The metadata record written by `create_snapshot`:
`{id, timestamp, files, size_bytes}`.  Timestamps are modelled as naturals
(ISO-8601 strings compare chronologically). -/
structure SnapMeta where
  id : String
  timestamp : Nat
  files : List FileEntry
  size_bytes : Nat
deriving DecidableEq, Repr

/-- The content of one regular file: either ordinary text bytes, or the JSON
serialization of a snapshot metadata record (`json.dump` of the `metadata`
dict).  `json.load` of a `text` file raises `JSONDecodeError`; of a `metaRec`
file it yields the record back. -/
inductive FileData where
  | text (s : String)
  | metaRec (m : SnapMeta)
deriving DecidableEq, Repr

/-- `path.stat().st_size` of a file holding this content. -/
def FileData.size : FileData → Nat
  | FileData.text s => s.length
  | FileData.metaRec _ => 0

/-- The filesystem state seen by `HistoryManager`: the regular files and
their contents.  Directories are implicit: they exist wherever needed unless
a regular file occupies a path component (the case where `mkdir` raises,
modelled by `mkdirBlocked`). -/
structure FS where
  files : FPath → Option FileData

/-- Overwrite one regular file's contents (models `shutil.copy2` to the
target, the `json.dump` of the metadata record, and the "mutate the file"
step of the round-trip property). -/
def writeFile (fs : FS) (p : FPath) (content : FileData) : FS :=
  { files := fun q => if q = p then some content else fs.files q }

/-- An empty filesystem, used to instantiate witnesses. -/
def emptyFS : FS := ⟨fun _ => none⟩

namespace HistoryManager

/-- history.py lines 166-172: the snapshot-side target for one input path —
the home-relative mirror under the snapshot directory, or
`external/<basename>` for paths outside the home tree (`path.relative_to(Path.home())`
succeeds exactly when `homeDir` is a prefix). -/
def snapTarget (snapshot_id : String) (p : FPath) : FPath :=
  if homeDir.isPrefixOf p then
    snapshotsDir ++ [snapshot_id] ++ p.drop homeDir.length
  else
    snapshotsDir ++ [snapshot_id, "external", p.getLastD ""]

/-- `Path.mkdir(parents=True, exist_ok=True)` of `dir` raising: a regular
file occupies `dir` itself or one of its ancestors (`FileExistsError` /
`NotADirectoryError`).  Existing directories never raise (they are implicit
in the model); `exist_ok` only forgives existing directories, not files. -/
def mkdirBlocked (fs : FS) (dir : FPath) : Bool :=
  (List.range (dir.length + 1)).any (fun n => (fs.files (dir.take n)).isSome)

/-- history.py lines 155-187: the per-file loop of `create_snapshot`.  A path
that is missing or not a regular file is skipped by the `exists`/`is_file`
checks; then `target.parent.mkdir(parents=True, exist_ok=True)` runs OUTSIDE
the `try` (line 174), so its failure is an uncaught exception — modelled as
`none` — aborting the whole call; `copyFails p = true` models an
`OSError`/`IOError` from `shutil.copy2` (inside the `try`), which the source
silently swallows.  The accumulator carries the filesystem, the metadata
`files` list and the running `total_size`. -/
def snapFiles (copyFails : FPath → Bool) (snapshot_id : String) :
    FS → List FileEntry → Nat → List FPath → Option (FS × List FileEntry × Nat)
  | fs, entries, total, [] => some (fs, entries, total)
  | fs, entries, total, p :: rest =>
    match fs.files p with
    | none => snapFiles copyFails snapshot_id fs entries total rest
    | some content =>
      let target := snapTarget snapshot_id p
      if mkdirBlocked fs target.dropLast then none
      else if copyFails p then snapFiles copyFails snapshot_id fs entries total rest
      else snapFiles copyFails snapshot_id (writeFile fs target content)
        (entries ++ [⟨p, target, content.size⟩]) (total + content.size) rest

/-- history.py lines 133-195: `create_snapshot`.  `uuid4()` and
`datetime.now()` are passed in as `snapshot_id` and `now`.  The initial
`snapshot_dir.mkdir()` (line 145, uncaught) raises when a regular file
blocks the path (a pre-existing snapshot directory — a uuid collision — is
not modelled); then each copyable input file is copied to its target, and
the metadata record is written as the regular file
`<snapshot_dir>/metadata.json` (line 192) — overwriting any file copy that
landed on that same path.  Returns `none` when an uncaught exception
propagates, otherwise the new filesystem and the generated id. -/
def create_snapshot (copyFails : FPath → Bool) (fs : FS) (snapshot_id : String)
    (now : Nat) (files : List FPath) : Option (FS × String) :=
  if mkdirBlocked fs (snapshotsDir ++ [snapshot_id]) then none
  else
    match snapFiles copyFails snapshot_id fs [] 0 files with
    | none => none
    | some r =>
      some (writeFile r.1 (snapshotsDir ++ [snapshot_id, "metadata.json"])
        (FileData.metaRec ⟨snapshot_id, now, r.2.1, r.2.2⟩), snapshot_id)

/-- history.py line 208: the snapshot-id format guard of `restore_snapshot` —
`not snapshot_id or '/' in snapshot_id or '\\' in snapshot_id or
snapshot_id.startswith('.')` rejects the id.  Stated over the string's
character list: an empty string is falsy, `in` is character membership, and
`startswith('.')` checks the first character. -/
def idRejected (snapshot_id : String) : Bool :=
  snapshot_id.data.isEmpty || snapshot_id.data.contains '/'
    || snapshot_id.data.contains '\\' || snapshot_id.data.head? == some '.'

/-- history.py lines 224-244: the per-metadata-entry step of
`restore_snapshot`'s loop.  The accumulator carries the `restored_count` and
the filesystem.  An entry is skipped unless its snapshot-side path resolves
inside the snapshot store root and its original-side path inside the home
tree (`_validate_path_safety`), and the snapshot-side regular file exists;
`shutil.copy2` copies that file's bytes, whatever they are. -/
def restoreStep (acc : Nat × FS) (e : FileEntry) : Nat × FS :=
  if ¬ snapshotsDir.isPrefixOf e.snapshot then acc
  else if ¬ homeDir.isPrefixOf e.original then acc
  else
    match acc.2.files e.snapshot with
    | none => acc
    | some content => (acc.1 + 1, writeFile acc.2 e.original content)

/-- history.py lines 197-248: `restore_snapshot`.  Returns the source's
boolean paired with the resulting filesystem.  Rejects malformed ids before
any filesystem access; returns false when the `metadata.json` file inside
the snapshot directory is missing, or holds non-record content
(`json.load` raises, caught at line 247); otherwise restores the validated
entries and succeeds only if at least one file was restored. -/
def restore_snapshot (fs : FS) (snapshot_id : String) : Bool × FS :=
  if idRejected snapshot_id then (false, fs)
  else
    match fs.files (snapshotsDir ++ [snapshot_id, "metadata.json"]) with
    | none => (false, fs)
    | some (FileData.text _) => (false, fs)
    | some (FileData.metaRec metadata) =>
      let r := metadata.files.foldl restoreStep (0, fs)
      (decide (r.1 > 0), r.2)

/-- history.py lines 250-266: `list_snapshots` — the readable metadata
records, sorted newest-first (`sorted(..., key=timestamp, reverse=True)`;
Python's stable sort with a reversed comparison is a stable merge sort under
`b.timestamp ≤ a.timestamp`).  `snaps` is the directory-iteration order. -/
def list_snapshots (snaps : List SnapMeta) : List SnapMeta :=
  snaps.mergeSort (fun a b => decide (b.timestamp ≤ a.timestamp))

/-- history.py lines 288-301: the cleanup loop over the (sorted) snapshot
list with its `enumerate` index: entries at `idx < keep` are kept
unconditionally; an older-than-cutoff entry beyond that is deleted
(`shutil.rmtree`) and counted.  Returns the count and the deleted records. -/
def cleanupLoop (keep : Nat) (cutoff : Int) : Nat → List SnapMeta → Nat × List SnapMeta
  | _, [] => (0, [])
  | idx, s :: rest =>
    let r := cleanupLoop keep cutoff (idx + 1) rest
    if idx < keep then r
    else if (s.timestamp : Int) < cutoff then (r.1 + 1, s :: r.2)
    else r

/-- history.py lines 268-303: `cleanup_old_snapshots`.  `cutoff` models
`datetime.now() - timedelta(days=max_age_days)`.  Returns the source's
deleted count paired with the deleted records (the instrumented `rmtree`
calls). -/
def cleanup_old_snapshots (snaps : List SnapMeta) (keep : Nat) (cutoff : Int) :
    Nat × List SnapMeta :=
  let sorted := list_snapshots snaps
  if sorted.length ≤ keep then (0, [])
  else cleanupLoop keep cutoff 0 sorted

end HistoryManager

/-- A command matching the `xmrig` blocklist entry. -/
def cmdBlocked : Command := ⟨"xmrig run", "mine", none⟩

/-- A plan whose single command is blocked. -/
def planBlocked : Plan := ⟨"s", RiskLevel.low, [cmdBlocked], "e", none, none⟩

/-- A regex-search oracle that reports a match exactly for the `xmrig`
pattern (a faithful instance: `re.search("xmrig", "xmrig run")` matches). -/
def reSearchBlock : String → String → Bool := fun pat _ => pat == "xmrig"

/-- An executor environment for the witnesses: local mode, no forced dry run,
no sandbox, every command exits 0 with empty output. -/
def envBlock : ExecEnv :=
  ⟨"", "local", none, reSearchBlock, fun _ => (0, ""), fun _ => "id-1"⟩

/-- A plan [A (exit 0), B (exit 2), C (exit 0)] for the stop-on-failure
witness. -/
def planABC : Plan :=
  ⟨"s", RiskLevel.low,
   [⟨"A", "a", none⟩, ⟨"B", "b", none⟩, ⟨"C", "c", none⟩], "e", none, none⟩

/-- Environment for the stop-on-failure witness: command `"B"` exits 2,
everything else exits 0; nothing matches any pattern. -/
def envABC : ExecEnv :=
  ⟨"", "local", none, fun _ _ => false,
   fun c => if c = "B" then (2, "") else (0, ""), fun _ => "id-1"⟩

/-- An initial filesystem with two files outside the home tree sharing the
basename `conf`. -/
def fsTwoExternal : FS :=
  ⟨fun q =>
    if q = ["etc", "conf"] then some (FileData.text "A")
    else if q = ["srv", "conf"] then some (FileData.text "B") else none⟩

/-- An initial filesystem holding a regular file named `~/external` plus a
file outside the home tree: snapshotting both makes the real
`create_snapshot` raise `FileExistsError` at history.py line 174. -/
def fsExternalClash : FS :=
  ⟨fun q =>
    if q = ["home", "user", "external"] then some (FileData.text "x")
    else if q = ["etc", "hosts"] then some (FileData.text "y") else none⟩

/-!
Theorems.  The first groups characterize the embedded operations; the named
claim theorems, their witnesses and the counterexample follow.
-/

namespace SafetyChecker

theorem validate_commands_foldl (reSearch : String → String → Bool) :
    ∀ (commands : List String) (b : Bool) (ws : List String),
      commands.foldl (validateStep reSearch) (b, ws) =
        (b && commands.all (fun c => !(is_blocked reSearch c).1),
         ws ++ commands.flatMap (commandWarnings reSearch)) := by
  intro commands
  induction commands with
  | nil => intro b ws; simp
  | cons c rest ih =>
    intro b ws
    simp only [List.foldl_cons, List.all_cons, List.flatMap_cons]
    by_cases hb : (is_blocked reSearch c).1
    · have hstep : validateStep reSearch (b, ws) c =
          (false, ws ++ commandWarnings reSearch c) := by
        simp [validateStep, commandWarnings, hb]
      rw [hstep, ih]
      simp [hb]
    · have hstep : validateStep reSearch (b, ws) c =
          (b, ws ++ commandWarnings reSearch c) := by
        simp only [validateStep, commandWarnings, hb]
        cases h : assess_risk reSearch c <;> simp [h, hb]
      rw [hstep, ih]
      simp [hb]

/-- Characterization of `validate_commands`: `all_safe` is true exactly when
no command is blocked, and the warnings are the per-command warnings
concatenated in order. -/
theorem validate_commands_spec (reSearch : String → String → Bool)
    (commands : List String) :
    validate_commands reSearch commands =
      (commands.all (fun c => !(is_blocked reSearch c).1),
       commands.flatMap (commandWarnings reSearch)) := by
  simpa using validate_commands_foldl reSearch commands true []

end SafetyChecker

namespace Executor

theorem execCommands_dry (mode : String) (runCmd : String → Int × String) :
    ∀ (cmds : List Command) (idx : Nat),
      execCommands mode runCmd true idx cmds = (0, dryRunLines idx cmds, []) := by
  intro cmds
  induction cmds with
  | nil => intro idx; simp [execCommands, dryRunLines]
  | cons cmd rest ih =>
    intro idx
    simp [execCommands, dryRunLines, ih (idx + 1)]

/-- Once the safety and sandbox gates pass, `execute_plan` is the snapshot
step followed by the command loop. -/
theorem execute_plan_passed (env : ExecEnv) (plan : Plan) (dry_run : Bool)
    (hsafe : (SafetyChecker.validate_commands env.reSearch
      (plan.commands.map Command.command)).1 = true)
    (hsandbox : env.sandbox_violation = none) :
    execute_plan env plan dry_run =
      (let dry := if forcedDryRun env then true else dry_run
       let r := execCommands env.executor_mode env.runCmd dry 1 plan.commands
       ((r.1, joinLines r.2.1, (snapFilesOf plan dry).map env.createSnap),
        snapEffects (snapFilesOf plan dry) ++ r.2.2)) := by
  unfold execute_plan snapEffects snapFilesOf
  simp only [hsafe, hsandbox]
  cases plan.affected_files <;> simp

/-- One unfolding step of the loop in live (non-dry, non-mock) mode. -/
theorem execCommands_cons_local (mode : String) (hm : ¬ mode = "mock")
    (runCmd : String → Int × String) (idx : Nat) (cmd : Command) (rest : List Command) :
    execCommands mode runCmd false idx (cmd :: rest) =
      (let code := (runCmd cmd.command).1
       let out := (runCmd cmd.command).2
       let header := "[" ++ toString idx ++ "] Executing: " ++ cmd.command
       let lines := if out = "" then [header] else [header, out]
       if code ≠ 0 then
         (code, lines ++ ["Command failed with exit code " ++ toString code],
          [Effect.run cmd.command])
       else
         let r := execCommands mode runCmd false (idx + 1) rest
         (r.1, lines ++ r.2.1, Effect.run cmd.command :: r.2.2)) := by
  simp [execCommands, hm]

theorem execCommands_stop (mode : String) (hm : ¬ mode = "mock")
    (runCmd : String → Int × String) (f : Command) (post : List Command)
    (hf : ¬ (runCmd f.command).1 = 0) :
    ∀ (pre : List Command), (∀ c ∈ pre, (runCmd c.command).1 = 0) →
      ∀ idx : Nat, ∃ L : List String,
        execCommands mode runCmd false idx (pre ++ f :: post) =
          ((runCmd f.command).1,
           L ++ ["Command failed with exit code " ++ toString (runCmd f.command).1],
           (pre.map (fun c => Effect.run c.command)) ++ [Effect.run f.command]) := by
  intro pre
  induction pre with
  | nil =>
    intro _ idx
    refine ⟨if (runCmd f.command).2 = ""
        then ["[" ++ toString idx ++ "] Executing: " ++ f.command]
        else ["[" ++ toString idx ++ "] Executing: " ++ f.command, (runCmd f.command).2], ?_⟩
    rw [List.nil_append, execCommands_cons_local mode hm runCmd idx f post]
    simp [hf]
  | cons a pre ih =>
    intro hpre idx
    have ha : (runCmd a.command).1 = 0 := hpre a (by simp)
    obtain ⟨L, hL⟩ := ih (fun c hc => hpre c (by simp [hc])) (idx + 1)
    refine ⟨(if (runCmd a.command).2 = ""
        then ["[" ++ toString idx ++ "] Executing: " ++ a.command]
        else ["[" ++ toString idx ++ "] Executing: " ++ a.command, (runCmd a.command).2])
      ++ L, ?_⟩
    rw [List.cons_append, execCommands_cons_local mode hm runCmd idx a (pre ++ f :: post)]
    simp [ha, hL, List.append_assoc]

theorem joinLines_append_last :
    ∀ (L : List String) (m : String), ∃ s : String, joinLines (L ++ [m]) = s ++ m := by
  intro L
  induction L with
  | nil => intro m; exact ⟨"", by simp [joinLines]⟩
  | cons x rest ih =>
    intro m
    obtain ⟨s, hs⟩ := ih m
    cases rest with
    | nil =>
      refine ⟨x ++ "\n", ?_⟩
      simp [joinLines, String.append_assoc]
    | cons y t =>
      refine ⟨x ++ "\n" ++ s, ?_⟩
      have h2 : joinLines ((x :: y :: t) ++ [m]) = x ++ "\n" ++ joinLines ((y :: t) ++ [m]) := by
        simp [joinLines]
      rw [h2, hs]
      simp [String.append_assoc]

end Executor

/-- C3: for every snapshot id containing a path separator or starting with a
dot, `restore_snapshot` returns false and leaves the filesystem untouched —
the format guard fires before any filesystem access. -/
theorem restore_rejects_traversal_ids (fs : FS) (snapshot_id : String)
    (h : '/' ∈ snapshot_id.data ∨ '\\' ∈ snapshot_id.data ∨
      snapshot_id.data.head? = some '.') :
    HistoryManager.restore_snapshot fs snapshot_id = (false, fs) := by
  have hrej : HistoryManager.idRejected snapshot_id = true := by
    rcases h with h | h | h <;> simp [HistoryManager.idRejected, h]
  simp [HistoryManager.restore_snapshot, hrej]

/-- Witness for the traversal-id rejection theorem at the id `"a/b"`. -/
theorem restore_rejects_traversal_ids_witness :
    ('/' ∈ "a/b".data ∨ '\\' ∈ "a/b".data ∨ "a/b".data.head? = some '.')
    ∧ HistoryManager.restore_snapshot emptyFS "a/b" = (false, emptyFS) :=
  ⟨Or.inl (by decide), restore_rejects_traversal_ids emptyFS "a/b" (Or.inl (by decide))⟩

/-- C9: `restore_snapshot` applied to the empty string returns false without
touching the filesystem — the guard also rejects empty ids. -/
theorem restore_rejects_empty_id (fs : FS) :
    HistoryManager.restore_snapshot fs "" = (false, fs) := by
  have hrej : HistoryManager.idRejected "" = true := by decide
  simp [HistoryManager.restore_snapshot, hrej]

/-- C8: `validate_commands` checks every command (no short-circuit) and
returns one `(allSafe, warnings)` pair: `allSafe` is true exactly when no
command is blocked (so each blocked command forces it to false, and advisory
High/Medium warnings never flip it), and the warning list is the ordered
concatenation of each command's contribution (`commandWarnings`: a BLOCKED
warning for a blocked command, an advisory warning for a non-blocked High or
Medium command, nothing for a Low one). -/
theorem validate_commands_batch (reSearch : String → String → Bool)
    (commands : List String) :
    ((SafetyChecker.validate_commands reSearch commands).1 = true ↔
      ∀ c ∈ commands, (SafetyChecker.is_blocked reSearch c).1 = false)
    ∧ (SafetyChecker.validate_commands reSearch commands).2 =
        commands.flatMap (SafetyChecker.commandWarnings reSearch) := by
  rw [SafetyChecker.validate_commands_spec]
  refine ⟨?_, rfl⟩
  simp [List.all_eq_true]

/-- The cleanup loop deletes, among the entries at index ≥ `keep`, exactly the
ones older than the cutoff; stated for an arbitrary starting index. -/
theorem cleanupLoop_spec (keep : Nat) (cutoff : Int) :
    ∀ (l : List SnapMeta) (idx : Nat),
      HistoryManager.cleanupLoop keep cutoff idx l =
        (((l.drop (keep - idx)).filter
            (fun s => decide ((s.timestamp : Int) < cutoff))).length,
         (l.drop (keep - idx)).filter
            (fun s => decide ((s.timestamp : Int) < cutoff))) := by
  intro l
  induction l with
  | nil => intro idx; simp [HistoryManager.cleanupLoop]
  | cons s rest ih =>
    intro idx
    by_cases hidx : idx < keep
    · have h1 : keep - idx = (keep - (idx + 1)) + 1 := by omega
      simp only [HistoryManager.cleanupLoop, ih (idx + 1), hidx, if_true, h1,
        List.drop_succ_cons]
    · have h0 : keep - idx = 0 := by omega
      have h1 : keep - (idx + 1) = 0 := by omega
      simp only [HistoryManager.cleanupLoop, ih (idx + 1), hidx, if_false, h0, h1,
        List.drop_zero]
      by_cases ht : (s.timestamp : Int) < cutoff <;> simp [ht]

/-- C7: `cleanup_old_snapshots` orders the snapshots newest-first (a
permutation of the store, sorted by descending timestamp), never deletes any
of the first `keep` entries of that order regardless of age, deletes among
the remainder exactly those whose timestamp is older than the cutoff, and
returns the count actually deleted. -/
theorem cleanup_retention (snaps : List SnapMeta) (keep : Nat) (cutoff : Int) :
    (HistoryManager.cleanup_old_snapshots snaps keep cutoff).2 =
      ((HistoryManager.list_snapshots snaps).drop keep).filter
        (fun s => decide ((s.timestamp : Int) < cutoff))
    ∧ (HistoryManager.cleanup_old_snapshots snaps keep cutoff).1 =
        (((HistoryManager.list_snapshots snaps).drop keep).filter
          (fun s => decide ((s.timestamp : Int) < cutoff))).length
    ∧ (HistoryManager.list_snapshots snaps).Sorted
        (fun a b => b.timestamp ≤ a.timestamp)
    ∧ (HistoryManager.list_snapshots snaps).Perm snaps := by
  have hsorted : (HistoryManager.list_snapshots snaps).Sorted
      (fun a b => b.timestamp ≤ a.timestamp) := by
    have h := @List.sorted_mergeSort SnapMeta
      (fun a b => decide (b.timestamp ≤ a.timestamp))
      (fun a b c hab hbc => by
        simp only [decide_eq_true_eq] at *
        omega)
      (fun a b => by
        simp only [Bool.or_eq_true, decide_eq_true_eq]
        omega)
      snaps
    exact List.Pairwise.imp (by simp) h
  have hperm : (HistoryManager.list_snapshots snaps).Perm snaps :=
    List.mergeSort_perm snaps _
  refine ⟨?_, ?_, hsorted, hperm⟩ <;>
  · unfold HistoryManager.cleanup_old_snapshots
    by_cases hlen : (HistoryManager.list_snapshots snaps).length ≤ keep
    · have hdrop : (HistoryManager.list_snapshots snaps).drop keep = [] :=
        List.drop_eq_nil_of_le hlen
      simp [hlen, hdrop]
    · simp only [hlen, if_false, cleanupLoop_spec keep cutoff _ 0, Nat.sub_zero]

theorem runsOf_append (a b : List Effect) : runsOf (a ++ b) = runsOf a ++ runsOf b := by
  simp [runsOf]

theorem runsOf_snapEffects (o : Option (List String)) :
    runsOf (Executor.snapEffects o) = [] := by
  cases o <;> simp [runsOf, Executor.snapEffects]

theorem runsOf_runs (cs : List Command) :
    runsOf (cs.map (fun c => Effect.run c.command)) = cs.map Command.command := by
  induction cs with
  | nil => simp [runsOf]
  | cons c rest ih =>
    simp only [runsOf, List.map_cons, List.filterMap_cons] at ih ⊢
    rw [ih]

/-- C1: a plan containing a blocked command makes `execute_plan` return
exit code 1 with the joined warning text as output and no snapshot id, and
the effect trace is empty — no snapshot is created and no command is run. -/
theorem blocked_plan_aborts (env : ExecEnv) (plan : Plan) (dry_run : Bool)
    (h : ∃ c ∈ plan.commands, (SafetyChecker.is_blocked env.reSearch c.command).1 = true) :
    Executor.execute_plan env plan dry_run =
      ((1, joinLines (SafetyChecker.validate_commands env.reSearch
          (plan.commands.map Command.command)).2, none), []) := by
  obtain ⟨c, hc, hb⟩ := h
  have hv : (SafetyChecker.validate_commands env.reSearch
      (plan.commands.map Command.command)).1 = false := by
    rw [SafetyChecker.validate_commands_spec]
    simp only [List.all_eq_false, List.mem_map]
    exact ⟨c.command, ⟨c, hc, rfl⟩, by simp [hb]⟩
  unfold Executor.execute_plan
  simp [hv]

/-- Witness for the blocked-plan theorem at a concrete blocked plan. -/
theorem blocked_plan_aborts_witness :
    (∃ c ∈ planBlocked.commands,
      (SafetyChecker.is_blocked envBlock.reSearch c.command).1 = true)
    ∧ Executor.execute_plan envBlock planBlocked false =
        ((1, joinLines (SafetyChecker.validate_commands envBlock.reSearch
            (planBlocked.commands.map Command.command)).2, none), []) :=
  ⟨⟨cmdBlocked, by decide, by decide⟩,
   blocked_plan_aborts envBlock planBlocked false ⟨cmdBlocked, by decide, by decide⟩⟩

/-- C5: in live (non-dry, non-mock) execution of a safety-passing plan,
commands run strictly in order and stop at the first non-zero exit: the
commands actually run are exactly the prefix up to and including the first
failing command, the plan's exit code is that command's exit code, and the
output ends with the failure marker. -/
theorem stop_on_first_failure (env : ExecEnv) (plan : Plan)
    (hdry : Executor.forcedDryRun env = false)
    (hmode : ¬ env.executor_mode = "mock")
    (hsafe : (SafetyChecker.validate_commands env.reSearch
      (plan.commands.map Command.command)).1 = true)
    (hsandbox : env.sandbox_violation = none)
    (pre : List Command) (f : Command) (post : List Command)
    (hsplit : plan.commands = pre ++ f :: post)
    (hpre : ∀ c ∈ pre, (env.runCmd c.command).1 = 0)
    (hfail : ¬ (env.runCmd f.command).1 = 0) :
    (Executor.execute_plan env plan false).1.1 = (env.runCmd f.command).1
    ∧ runsOf (Executor.execute_plan env plan false).2 = (pre ++ [f]).map Command.command
    ∧ ∃ s : String, (Executor.execute_plan env plan false).1.2.1 =
        s ++ ("Command failed with exit code " ++ toString (env.runCmd f.command).1) := by
  obtain ⟨L, hL⟩ :=
    Executor.execCommands_stop env.executor_mode hmode env.runCmd f post hfail pre hpre 1
  rw [Executor.execute_plan_passed env plan false hsafe hsandbox]
  simp only [hdry, Bool.false_eq_true, if_false, hsplit, hL]
  refine ⟨by trivial, ?_, ?_⟩
  · rw [runsOf_append, runsOf_snapEffects, List.nil_append, runsOf_append, runsOf_runs]
    simp [runsOf]
  · obtain ⟨s, hs⟩ := Executor.joinLines_append_last L
      ("Command failed with exit code " ++ toString (env.runCmd f.command).1)
    exact ⟨s, hs⟩

/-- Witness for the stop-on-failure theorem on the plan [A 0, B 2, C 0]. -/
theorem stop_on_first_failure_witness :
    Executor.forcedDryRun envABC = false
    ∧ ¬ envABC.executor_mode = "mock"
    ∧ (SafetyChecker.validate_commands envABC.reSearch
        (planABC.commands.map Command.command)).1 = true
    ∧ envABC.sandbox_violation = none
    ∧ planABC.commands = [⟨"A", "a", none⟩] ++ ⟨"B", "b", none⟩ :: [⟨"C", "c", none⟩]
    ∧ (∀ c ∈ [(⟨"A", "a", none⟩ : Command)], (envABC.runCmd c.command).1 = 0)
    ∧ ¬ (envABC.runCmd "B").1 = 0
    ∧ (Executor.execute_plan envABC planABC false).1.1 = 2
    ∧ runsOf (Executor.execute_plan envABC planABC false).2 = ["A", "B"] := by
  have h := stop_on_first_failure envABC planABC (by decide) (by decide) (by decide) rfl
    [⟨"A", "a", none⟩] ⟨"B", "b", none⟩ [⟨"C", "c", none⟩] rfl
    (by intro c hc; simp at hc; subst hc; decide) (by decide)
  refine ⟨by decide, by decide, by decide, rfl, rfl,
    by intro c hc; simp at hc; subst hc; decide, by decide, ?_, ?_⟩
  · rw [h.1]; decide
  · rw [h.2.1]; decide

/-- C6 (amended preview clause): `execute_plan` with `dry_run = true`
produces no effects at all — no snapshot is created and no command is run —
and returns no snapshot id, for every plan; and when the safety and sandbox
gates pass, the output is exactly the labeled preview lines, one per
command, each using the command's dry-run variant when present AND non-empty
(executor.py line 67 is `cmd.dry_run or cmd.command`, and Python's `or`
falls back on the empty string too), else its real text. -/
theorem dry_run_purity (env : ExecEnv) (plan : Plan) :
    (Executor.execute_plan env plan true).2 = []
    ∧ (Executor.execute_plan env plan true).1.2.2 = none
    ∧ ((SafetyChecker.validate_commands env.reSearch
          (plan.commands.map Command.command)).1 = true →
        env.sandbox_violation = none →
        (Executor.execute_plan env plan true).1.2.1 =
          joinLines (Executor.dryRunLines 1 plan.commands)) := by
  by_cases hv : (SafetyChecker.validate_commands env.reSearch
      (plan.commands.map Command.command)).1 = true
  · cases hsv : env.sandbox_violation with
    | some v =>
      unfold Executor.execute_plan
      simp [hv, hsv]
    | none =>
      rw [Executor.execute_plan_passed env plan true hv hsv]
      cases haf : plan.affected_files <;>
        simp [Executor.execCommands_dry, Executor.snapFilesOf, Executor.snapEffects, haf]
  · have hv' : (SafetyChecker.validate_commands env.reSearch
        (plan.commands.map Command.command)).1 = false := by
      revert hv
      cases (SafetyChecker.validate_commands env.reSearch
        (plan.commands.map Command.command)).1 <;> simp
    unfold Executor.execute_plan
    simp [hv']

/-- Witness for the dry-run purity theorem at a concrete plan with affected
files and a dry-run variant, discharging the inner gate hypotheses. -/
theorem dry_run_purity_witness :
    (Executor.execute_plan envABC
        ⟨"s", RiskLevel.low, [⟨"rm x", "d", some "echo rm x"⟩], "e",
         some ["x"], none⟩ true).2 = []
    ∧ (Executor.execute_plan envABC
        ⟨"s", RiskLevel.low, [⟨"rm x", "d", some "echo rm x"⟩], "e",
         some ["x"], none⟩ true).1.2.2 = none
    ∧ (Executor.execute_plan envABC
        ⟨"s", RiskLevel.low, [⟨"rm x", "d", some "echo rm x"⟩], "e",
         some ["x"], none⟩ true).1.2.1 =
        joinLines (Executor.dryRunLines 1 [⟨"rm x", "d", some "echo rm x"⟩]) := by
  have h := dry_run_purity envABC
    ⟨"s", RiskLevel.low, [⟨"rm x", "d", some "echo rm x"⟩], "e", some ["x"], none⟩
  exact ⟨h.1, h.2.1, h.2.2 (by decide) rfl⟩

/-- Counterexample to C6's preview clause as stated, at a command whose
dry-run variant is PRESENT but EMPTY (`dry_run = some ""`): the program
previews the real command text — executor.py line 67 is
`cmd.dry_run or cmd.command` and Python's `or` treats `""` as absent — so
the faithful `dryRunLines` and the claim's literal reading
`dryRunLinesSpecReading` (use the variant whenever it is present) disagree
on this input, as does the actual `execute_plan` output. -/
theorem dry_run_preview_counterexample :
    (Executor.execute_plan envABC
        ⟨"s", RiskLevel.low, [⟨"touch x", "d", some ""⟩], "e", none, none⟩ true).1.2.1
      = "[DRY RUN 1] touch x"
    ∧ Executor.dryRunLines 1 [⟨"touch x", "d", some ""⟩] = ["[DRY RUN 1] touch x"]
    ∧ Executor.dryRunLinesSpecReading 1 [⟨"touch x", "d", some ""⟩] = ["[DRY RUN 1] "]
    ∧ ("[DRY RUN 1] touch x" : String) ≠ "[DRY RUN 1] " := by
  refine ⟨by decide, by decide, by decide, by decide⟩

theorem mkdirBlocked_eq_false (fs : FS) (dir : FPath) :
    HistoryManager.mkdirBlocked fs dir = false ↔
      ∀ n, n ≤ dir.length → fs.files (dir.take n) = none := by
  unfold HistoryManager.mkdirBlocked
  rw [List.any_eq_false]
  constructor
  · intro h n hn
    have h2 := h n (List.mem_range.mpr (by omega))
    cases hcase : fs.files (dir.take n) with
    | none => rfl
    | some v => rw [hcase] at h2; simp at h2
  · intro h n hn
    have hn2 := List.mem_range.mp hn
    simp [h n (by omega)]

/-- A path blocked nowhere has no blocked prefix path either. -/
theorem mkdirBlocked_mono (fs : FS) (d e : FPath) (hpre : d <+: e)
    (he : HistoryManager.mkdirBlocked fs e = false) :
    HistoryManager.mkdirBlocked fs d = false := by
  rw [mkdirBlocked_eq_false] at he ⊢
  intro n hn
  obtain ⟨r, hr⟩ := hpre
  have h0 : n - d.length = 0 := by omega
  have htake : e.take n = d.take n := by
    rw [← hr, List.take_append_eq_append_take, h0]
    simp
  rw [← htake]
  refine he n ?_
  rw [← hr, List.length_append]
  omega

/-- Extending an unblocked directory into fresh territory stays unblocked. -/
theorem mkdirBlocked_append_of_fresh (fs : FS) (d e : FPath)
    (hd : HistoryManager.mkdirBlocked fs d = false)
    (hfresh : ∀ q, d.isPrefixOf q = true → fs.files q = none) :
    HistoryManager.mkdirBlocked fs (d ++ e) = false := by
  rw [mkdirBlocked_eq_false] at hd ⊢
  intro n hn
  rw [List.take_append_eq_append_take]
  by_cases hnd : n ≤ d.length
  · have h0 : n - d.length = 0 := by omega
    rw [h0]
    simpa using hd n hnd
  · rw [List.take_of_length_le (by omega)]
    exact hfresh _ (List.isPrefixOf_iff_prefix.mpr ⟨_, rfl⟩)

/-- Writing a file strictly longer than every component path of `dir` does
not change whether `mkdir` of `dir` is blocked. -/
theorem mkdirBlocked_writeFile_longer (fs : FS) (w : FPath) (d : FileData) (dir : FPath)
    (hw : dir.length < w.length) :
    HistoryManager.mkdirBlocked (writeFile fs w d) dir =
      HistoryManager.mkdirBlocked fs dir := by
  unfold HistoryManager.mkdirBlocked
  congr 1
  funext n
  have hne : dir.take n ≠ w := by
    intro h
    have hlen := congrArg List.length h
    simp [List.length_take] at hlen
    omega
  simp [writeFile, hne]

/-- C4: evidence that the code breaks the claim's fail-soft guarantee.
First conjunct: for the ordinary input list `[~/external, /etc/hosts]` (with
`~/external` an existing regular file), `create_snapshot` hits the uncaught
`target.parent.mkdir` at history.py line 174 — the first file's copy sits at
`<snap>/external`, and the second file's target directory is that very path
— so the call raises (`none` in the model) and `executor.py` line 58, which
has no handler, crashes with it: there is no degrade-to-null-id path.
Second conjunct: the failure classes the per-file checks do handle (missing
files, copy errors) stay soft, showing the uncaught `mkdir` is the slip, not
the design. -/
theorem create_snapshot_mkdir_crash :
    (HistoryManager.create_snapshot (fun _ => false) fsExternalClash "deadbeef" 0
      [["home", "user", "external"], ["etc", "hosts"]]).isNone = true
    ∧ (HistoryManager.create_snapshot (fun _ => true) fsExternalClash "deadbeef" 0
        [["home", "user", "external"], ["missing", "f"]]).isSome = true := by
  exact ⟨by decide, by decide⟩

/-- C10: two distinct paths outside the home tree sharing the same basename
are assigned the same snapshot-side target `external/<basename>`, so the
later copy overwrites the earlier one, while the metadata still records one
entry per original path, both pointing at that one snapshot path.  The
`hd1`/`hfresh` side conditions say the snapshot store's ancestors are
directories and the `uuid4()` directory is fresh, so the run completes. -/
theorem external_basename_collision (fs : FS) (snapshot_id : String) (now : Nat)
    (p1 p2 : FPath) (c1 c2 : String)
    (h1 : homeDir.isPrefixOf p1 = false)
    (h2 : homeDir.isPrefixOf p2 = false)
    (hne : p1 ≠ p2)
    (hbase : p1.getLastD "" = p2.getLastD "")
    (hf1 : fs.files p1 = some (FileData.text c1))
    (hf2 : fs.files p2 = some (FileData.text c2))
    (hd1 : HistoryManager.mkdirBlocked fs (snapshotsDir ++ [snapshot_id]) = false)
    (hfresh : ∀ q, (snapshotsDir ++ [snapshot_id]).isPrefixOf q = true →
      fs.files q = none) :
    HistoryManager.snapTarget snapshot_id p2 = HistoryManager.snapTarget snapshot_id p1
    ∧ ∃ fs1 : FS,
        HistoryManager.create_snapshot (fun _ => false) fs snapshot_id now [p1, p2] =
          some (fs1, snapshot_id)
        ∧ fs1.files (HistoryManager.snapTarget snapshot_id p1) = some (FileData.text c2)
        ∧ fs1.files (snapshotsDir ++ [snapshot_id, "metadata.json"]) =
            some (FileData.metaRec ⟨snapshot_id, now,
              [⟨p1, HistoryManager.snapTarget snapshot_id p1, c1.length⟩,
               ⟨p2, HistoryManager.snapTarget snapshot_id p1, c2.length⟩],
              c1.length + c2.length⟩) := by
  have hT1 : HistoryManager.snapTarget snapshot_id p1 =
      (snapshotsDir ++ [snapshot_id]) ++ ["external", p1.getLastD ""] := by
    unfold HistoryManager.snapTarget
    rw [if_neg (by simp only [h1]; decide)]
    simp
  have hT2 : HistoryManager.snapTarget snapshot_id p2 =
      HistoryManager.snapTarget snapshot_id p1 := by
    unfold HistoryManager.snapTarget
    rw [if_neg (by simp only [h2]; decide), if_neg (by simp only [h1]; decide), hbase]
  have hhomeT : homeDir.isPrefixOf (HistoryManager.snapTarget snapshot_id p1) = true := by
    rw [hT1]
    refine List.isPrefixOf_iff_prefix.mpr
      ⟨[".drift", "snapshots", snapshot_id, "external", p1.getLastD ""], ?_⟩
    simp [snapshotsDir, driftDir, homeDir]
  have hp2T : ¬ p2 = HistoryManager.snapTarget snapshot_id p1 := by
    intro h
    rw [← h, h2] at hhomeT
    exact absurd hhomeT (by decide)
  have hdT : HistoryManager.mkdirBlocked fs
      (HistoryManager.snapTarget snapshot_id p1) = false := by
    rw [hT1]
    exact mkdirBlocked_append_of_fresh fs _ _ hd1 hfresh
  have hdP : HistoryManager.mkdirBlocked fs
      (HistoryManager.snapTarget snapshot_id p1).dropLast = false :=
    mkdirBlocked_mono fs _ _ (List.dropLast_prefix _) hdT
  have hTlen : (HistoryManager.snapTarget snapshot_id p1).length =
      snapshotsDir.length + 3 := by
    rw [hT1]
    simp
  have hdP1 : HistoryManager.mkdirBlocked
      (writeFile fs (HistoryManager.snapTarget snapshot_id p1) (FileData.text c1))
      (HistoryManager.snapTarget snapshot_id p1).dropLast = false := by
    rw [mkdirBlocked_writeFile_longer]
    · exact hdP
    · have h3 : (HistoryManager.snapTarget snapshot_id p1).dropLast.length =
          (HistoryManager.snapTarget snapshot_id p1).length - 1 := by
        simp [List.length_dropLast]
      omega
  have hlook2 : (writeFile fs (HistoryManager.snapTarget snapshot_id p1)
      (FileData.text c1)).files p2 = some (FileData.text c2) := by
    simp [writeFile, hp2T, hf2]
  have hsnap : HistoryManager.snapFiles (fun _ => false) snapshot_id fs [] 0 [p1, p2] =
      some (writeFile (writeFile fs (HistoryManager.snapTarget snapshot_id p1)
          (FileData.text c1)) (HistoryManager.snapTarget snapshot_id p1)
          (FileData.text c2),
        [⟨p1, HistoryManager.snapTarget snapshot_id p1, c1.length⟩,
         ⟨p2, HistoryManager.snapTarget snapshot_id p1, c2.length⟩],
        c1.length + c2.length) := by
    unfold HistoryManager.snapFiles
    rw [hf1]
    simp only [hdP, Bool.false_eq_true, if_false]
    unfold HistoryManager.snapFiles
    rw [hlook2]
    rw [hT2]
    simp only [hdP1, Bool.false_eq_true, if_false]
    unfold HistoryManager.snapFiles
    simp [FileData.size]
  have hTm : ¬ HistoryManager.snapTarget snapshot_id p1 =
      snapshotsDir ++ [snapshot_id, "metadata.json"] := by
    intro h
    have hlen := congrArg List.length h
    rw [hTlen] at hlen
    simp at hlen
  refine ⟨hT2, ⟨writeFile (writeFile (writeFile fs
      (HistoryManager.snapTarget snapshot_id p1) (FileData.text c1))
      (HistoryManager.snapTarget snapshot_id p1) (FileData.text c2))
      (snapshotsDir ++ [snapshot_id, "metadata.json"])
      (FileData.metaRec ⟨snapshot_id, now,
        [⟨p1, HistoryManager.snapTarget snapshot_id p1, c1.length⟩,
         ⟨p2, HistoryManager.snapTarget snapshot_id p1, c2.length⟩],
        c1.length + c2.length⟩), ?_, ?_, ?_⟩⟩
  · unfold HistoryManager.create_snapshot
    rw [if_neg (by simp [hd1]), hsnap]
  · simp [writeFile, hTm]
  · simp [writeFile]

/-- Witness for the basename-collision theorem on `/etc/conf` and
`/srv/conf`. -/
theorem external_basename_collision_witness :
    (homeDir.isPrefixOf ["etc", "conf"] = false
      ∧ homeDir.isPrefixOf ["srv", "conf"] = false
      ∧ (["etc", "conf"] : FPath) ≠ ["srv", "conf"])
    ∧ (HistoryManager.create_snapshot (fun _ => false) fsTwoExternal "deadbeef" 0
        [["etc", "conf"], ["srv", "conf"]]).map
        (fun r => r.1.files (HistoryManager.snapTarget "deadbeef" ["etc", "conf"]))
      = some (some (FileData.text "B")) := by
  have hfresh : ∀ q, (snapshotsDir ++ ["deadbeef"]).isPrefixOf q = true →
      fsTwoExternal.files q = none := by
    intro q hq
    unfold fsTwoExternal
    by_cases h : q = ["etc", "conf"]
    · subst h
      exact absurd hq (by decide)
    · by_cases h2 : q = ["srv", "conf"]
      · subst h2
        exact absurd hq (by decide)
      · simp [h, h2]
  obtain ⟨fs1, hc, hf, hm⟩ := (external_basename_collision fsTwoExternal "deadbeef" 0
    ["etc", "conf"] ["srv", "conf"] "A" "B" (by decide) (by decide) (by decide)
    (by decide) rfl rfl (by decide) hfresh).2
  refine ⟨⟨by decide, by decide, by decide⟩, ?_⟩
  rw [hc]
  simp [hf]

end DriftCli
